import Mathlib

/-!
Verification development for the `promptflow.contracts.tool` module
(`src/promptflow/promptflow/contracts/tool.py`).

The module is shallowly embedded: Python runtime values appearing on the
wire (JSON-like data) are modelled by the inductive type `PyObj`; fallible
Python code (code that can raise) is modelled with `Except String`, the
string carrying the kind and message of the raised error.  Machinery from
the Python standard library that the module uses (`str.lower`, `json.loads`,
`int()`, `float()`, `str()`, truthiness) is modelled by small executable
Lean functions next to the embedding.
-/

set_option maxRecDepth 10000

namespace PromptflowTool

/-- A Python runtime value as it appears on the wire: `None`, booleans,
integers, floats (modelled as rationals), strings, lists, tuples and
string-keyed dicts.  Lists and tuples are distinct because
`isinstance(v, list)` is false for tuples. -/
inductive PyObj where
  | none : PyObj
  | pbool : Bool → PyObj
  | pint : Int → PyObj
  | pfloat : Rat → PyObj
  | pstr : String → PyObj
  | plist : List PyObj → PyObj
  | ptuple : List PyObj → PyObj
  | pdict : List (String × PyObj) → PyObj

/-- Identity check against `None` (`v is None`). -/
def pyIsNone : PyObj → Bool
  | .none => true
  | _ => false

/-- Python truthiness: `None`, `False`, `0`, `0.0`, `""`, `[]`, `()` and
empty dicts are falsy; everything else is truthy. -/
def pyTruthy : PyObj → Bool
  | .none => false
  | .pbool b => b
  | .pint n => n != 0
  | .pfloat q => q != 0
  | .pstr s => !s.isEmpty
  | .plist xs => !xs.isEmpty
  | .ptuple xs => !xs.isEmpty
  | .pdict es => !es.isEmpty

/-- Whether a value is a Python `str` (`isinstance(v, str)`). -/
def pyIsStr : PyObj → Bool
  | .pstr _ => true
  | _ => false

/-- Whether a value is a Python `list` (`isinstance(v, list)`); tuples are
not lists. -/
def pyIsList : PyObj → Bool
  | .plist _ => true
  | _ => false

/-- Model of Python `str(v)` for the scalar values the module converts;
container rendering is a simplified placeholder (no claim observes it). -/
def pyStr : PyObj → String
  | .none => "None"
  | .pbool b => if b then "True" else "False"
  | .pint n => toString n
  | .pfloat q => toString q
  | .pstr s => s
  | .plist _ => "<list>"
  | .ptuple _ => "<tuple>"
  | .pdict _ => "<dict>"

/-- Model of Python `repr(v)` as used in error messages; strings are
rendered in double quotes (a simplification of Python quoting). -/
def pyRepr : PyObj → String
  | .pstr s => "\"" ++ s ++ "\""
  | v => pyStr v

/-- Model of `str.lower` for one character (ASCII case mapping; all
strings the module compares are ASCII). -/
def lowerChar (c : Char) : Char :=
  if 'A' ≤ c ∧ c ≤ 'Z' then Char.ofNat (c.toNat + 32) else c

/-- Model of `s.lower()`. -/
def strLower (s : String) : String := String.mk (s.data.map lowerChar)

/-- Whether a character is ASCII whitespace. -/
def isSpaceChar (c : Char) : Bool := c = ' ' ∨ c = '\t' ∨ c = '\n' ∨ c = '\r'

/-- Model of `s.strip()`. -/
def strStrip (s : String) : String :=
  String.mk (((s.data.dropWhile isSpaceChar).reverse.dropWhile isSpaceChar).reverse)

/-- First-match lookup in a string-keyed dict, `data.get(k)` /
`data[k]`. -/
def dictGet (data : List (String × PyObj)) (k : String) : Option PyObj :=
  (data.find? (fun kv => kv.1 == k)).map (fun kv => kv.2)

/-- `data.get(k, d)`: lookup with a default for a missing key. -/
def dictGetD (data : List (String × PyObj)) (k : String) (d : PyObj) : PyObj :=
  match dictGet data k with
  | Option.none => d
  | Option.some v => v

/-- The `ValueType` string-backed enumeration (`class ValueType(str, Enum)`),
members in declaration order. -/
inductive ValueType where
  | INT | DOUBLE | BOOL | STRING | SECRET | PROMPT_TEMPLATE
  | LIST | OBJECT | FILE_PATH | IMAGE
deriving DecidableEq

/-- The underlying string value of each `ValueType` member. -/
def ValueType.value : ValueType → String
  | .INT => "int"
  | .DOUBLE => "double"
  | .BOOL => "bool"
  | .STRING => "string"
  | .SECRET => "secret"
  | .PROMPT_TEMPLATE => "prompt_template"
  | .LIST => "list"
  | .OBJECT => "object"
  | .FILE_PATH => "file_path"
  | .IMAGE => "image"

/-- Iteration order of `ValueType` (Python iterates enum members in
declaration order). -/
def ValueType.members : List ValueType :=
  [.INT, .DOUBLE, .BOOL, .STRING, .SECRET, .PROMPT_TEMPLATE,
   .LIST, .OBJECT, .FILE_PATH, .IMAGE]

/-- The `ToolType` string-backed enumeration, members in declaration
order (`_ACTION` is the internal action kind, value `"action"`). -/
inductive ToolType where
  | LLM | PYTHON | PROMPT | ACTION | CUSTOM_LLM
deriving DecidableEq

/-- The underlying string value of each `ToolType` member. -/
def ToolType.value : ToolType → String
  | .LLM => "llm"
  | .PYTHON => "python"
  | .PROMPT => "prompt"
  | .ACTION => "action"
  | .CUSTOM_LLM => "custom_llm"

/-- Iteration order of `ToolType`. -/
def ToolType.members : List ToolType :=
  [.LLM, .PYTHON, .PROMPT, .ACTION, .CUSTOM_LLM]

/-- The member values of `ValueType` as Python objects, for the generic
enum-resolution helper. -/
def valueTypeMemberVals : List PyObj := ValueType.members.map (fun m => .pstr m.value)

/-- The member values of `ToolType` as Python objects. -/
def toolTypeMemberVals : List PyObj := ToolType.members.map (fun m => .pstr m.value)

/-- `next((i for i in cls if val.lower() == i.lower()), None)` restricted to
a string candidate: the first member whose string value matches `s`
case-insensitively. -/
def findCI (members : List PyObj) (s : String) : Option PyObj :=
  members.find? (fun m =>
    match m with
    | .pstr t => strLower s == strLower t
    | _ => false)

/-- `_deserialize_enum(cls, val)` over a generic enumeration given by the
list of its members' underlying values, in iteration order.

Mirrors the source exactly:
* if some member's value is not a string, return `val` unchanged;
* otherwise evaluate `next((i for i in cls if val.lower() == i.lower()), None)`:
  over an empty enumeration the generator yields nothing and the predicate
  (hence `val.lower()`) is never evaluated, so `val` comes back unchanged;
  over a non-empty enumeration `val.lower()` is evaluated and raises
  `AttributeError` when `val` is not a string;
* `return typ if typ else val`: a matched member is only returned when it
  is truthy, i.e. its string value is non-empty. -/
def deserializeEnumG (members : List PyObj) (val : PyObj) : Except String PyObj :=
  if members.all pyIsStr then
    match members with
    | [] => .ok val
    | _ :: _ =>
      match val with
      | .pstr s =>
        match findCI members s with
        | Option.some (.pstr t) => .ok (if t.isEmpty then .pstr s else .pstr t)
        | _ => .ok val
      | _ => .error "AttributeError: lower"
  else .ok val

/-- An element of a resolved `type` list: either a genuine `ValueType`
member or the raw value kept for later resolution. -/
inductive VTypeOrRaw where
  | vt : ValueType → VTypeOrRaw
  | raw : PyObj → VTypeOrRaw

/-- `_deserialize_enum(ValueType, item)`: the helper instantiated at the
`ValueType` enumeration, with the member/raw-value distinction kept in the
result type.  All member values are non-empty strings, so the generic
truthiness and empty-enumeration edges do not arise. -/
def deserializeEnumValueType (val : PyObj) : Except String VTypeOrRaw :=
  match val with
  | .pstr s =>
    match ValueType.members.find? (fun m => strLower s == strLower m.value) with
    | Option.some m => .ok (.vt m)
    | Option.none => .ok (.raw (.pstr s))
  | _ => .error "AttributeError: lower"

/-! ### Model of the standard library `json.loads`

`ValueType.parse` delegates to `json.loads` for the `list` and `object`
kinds.  `json` is an external standard-library dependency, modelled here by
an executable recursive-descent JSON reader: whitespace, `null`, `true`,
`false`, strings with the JSON escapes, numbers (integers stay `int`,
fraction or exponent makes a `float`), arrays and objects; trailing
non-whitespace is rejected ("Extra data"), like `json.loads`.  Strictness
about unescaped control characters and about leading zeros in numbers is
not modelled. -/

/-- The `{` character, written via its code point. -/
def lbraceChar : Char := Char.ofNat 123

/-- The `}` character, written via its code point. -/
def rbraceChar : Char := Char.ofNat 125

/-- Skip JSON whitespace. -/
def jsonSkipWs : List Char → List Char
  | c :: cs => if c = ' ' ∨ c = '\t' ∨ c = '\n' ∨ c = '\r' then jsonSkipWs cs else c :: cs
  | [] => []

/-- Value of a hex digit. -/
def hexVal (c : Char) : Nat :=
  if '0' ≤ c ∧ c ≤ '9' then c.toNat - '0'.toNat
  else if 'a' ≤ c ∧ c ≤ 'f' then c.toNat - 'a'.toNat + 10
  else if 'A' ≤ c ∧ c ≤ 'F' then c.toNat - 'A'.toNat + 10
  else 0

/-- Whether a character is a hex digit. -/
def isHexDigitChar (c : Char) : Bool :=
  ('0' ≤ c ∧ c ≤ '9') ∨ ('a' ≤ c ∧ c ≤ 'f') ∨ ('A' ≤ c ∧ c ≤ 'F')

/-- A single-character JSON escape. -/
def jsonEsc (c : Char) : Option Char :=
  if c = '"' then Option.some '"'
  else if c = '\\' then Option.some '\\'
  else if c = '/' then Option.some '/'
  else if c = 'b' then Option.some (Char.ofNat 8)
  else if c = 'f' then Option.some (Char.ofNat 12)
  else if c = 'n' then Option.some '\n'
  else if c = 'r' then Option.some '\r'
  else if c = 't' then Option.some '\t'
  else Option.none

/-- Read the body of a JSON string, the opening quote already consumed;
`acc` holds the characters read so far, reversed. -/
def jsonStringAux (acc : List Char) : List Char → Except String (String × List Char)
  | [] => .error "JSONDecodeError: unterminated string"
  | '"' :: cs => .ok (String.mk acc.reverse, cs)
  | '\\' :: 'u' :: a :: b :: c :: d :: cs =>
    if isHexDigitChar a ∧ isHexDigitChar b ∧ isHexDigitChar c ∧ isHexDigitChar d then
      jsonStringAux
        (Char.ofNat (hexVal a * 4096 + hexVal b * 256 + hexVal c * 16 + hexVal d) :: acc) cs
    else .error "JSONDecodeError: invalid unicode escape"
  | '\\' :: e :: cs =>
    match jsonEsc e with
    | Option.some c => jsonStringAux (c :: acc) cs
    | Option.none => .error "JSONDecodeError: invalid escape"
  | '\\' :: [] => .error "JSONDecodeError: unterminated string"
  | c :: cs => jsonStringAux (c :: acc) cs

/-- Numeric value of a digit run. -/
def digitsVal (cs : List Char) : Nat :=
  cs.foldl (fun acc c => acc * 10 + (c.toNat - '0'.toNat)) 0

/-- Read a JSON number starting at `cs` (first character is a digit or a
minus sign).  An integer literal yields `pint`; a fraction or exponent part
yields `pfloat`. -/
def jsonNumber (cs : List Char) : Except String (PyObj × List Char) :=
  let (neg, cs1) := match cs with
    | '-' :: rest => (true, rest)
    | rest => (false, rest)
  let (intDigits, cs2) := cs1.span Char.isDigit
  if intDigits.isEmpty then .error "JSONDecodeError: expecting value"
  else
    let intPart : Int := Int.ofNat (digitsVal intDigits)
    let (fracDigits, cs3) := match cs2 with
      | '.' :: rest => rest.span Char.isDigit
      | rest => ([], rest)
    if (match cs2 with | '.' :: _ => fracDigits.isEmpty | _ => false) then
      .error "JSONDecodeError: expecting digits after decimal point"
    else
      let hasFrac : Bool := match cs2 with | '.' :: _ => true | _ => false
      let (hasExp, expNeg, expDigits, cs4) : Bool × Bool × List Char × List Char :=
        match cs3 with
        | 'e' :: '+' :: rest => (true, false, (rest.span Char.isDigit).1, (rest.span Char.isDigit).2)
        | 'e' :: '-' :: rest => (true, true, (rest.span Char.isDigit).1, (rest.span Char.isDigit).2)
        | 'e' :: rest => (true, false, (rest.span Char.isDigit).1, (rest.span Char.isDigit).2)
        | 'E' :: '+' :: rest => (true, false, (rest.span Char.isDigit).1, (rest.span Char.isDigit).2)
        | 'E' :: '-' :: rest => (true, true, (rest.span Char.isDigit).1, (rest.span Char.isDigit).2)
        | 'E' :: rest => (true, false, (rest.span Char.isDigit).1, (rest.span Char.isDigit).2)
        | rest => (false, false, [], rest)
      if hasExp ∧ expDigits.isEmpty then .error "JSONDecodeError: expecting exponent digits"
      else
        let mantissa : Rat :=
          (intPart : Rat) + (digitsVal fracDigits : Rat) / ((10 : Rat) ^ fracDigits.length)
        let expo : Int := if expNeg then -(Int.ofNat (digitsVal expDigits)) else Int.ofNat (digitsVal expDigits)
        let mag : Rat := mantissa * (10 : Rat) ^ expo
        let signed : Rat := if neg then -mag else mag
        if hasFrac ∨ hasExp then .ok (.pfloat signed, cs4)
        else .ok (.pint (if neg then -intPart else intPart), cs4)

mutual

/-- Read one JSON value, returning it with the unconsumed rest. -/
def jsonValue (fuel : Nat) (cs : List Char) : Except String (PyObj × List Char) :=
  match fuel with
  | 0 => .error "JSONDecodeError: out of fuel"
  | fuel + 1 =>
    match jsonSkipWs cs with
    | 'n' :: 'u' :: 'l' :: 'l' :: rest => .ok (.none, rest)
    | 't' :: 'r' :: 'u' :: 'e' :: rest => .ok (.pbool true, rest)
    | 'f' :: 'a' :: 'l' :: 's' :: 'e' :: rest => .ok (.pbool false, rest)
    | '"' :: rest =>
      match jsonStringAux [] rest with
      | .ok (s, rest2) => .ok (.pstr s, rest2)
      | .error e => .error e
    | '[' :: rest =>
      match jsonSkipWs rest with
      | ']' :: rest2 => .ok (.plist [], rest2)
      | rest2 =>
        match jsonArrayItems fuel rest2 with
        | .ok (vs, rest3) => .ok (.plist vs, rest3)
        | .error e => .error e
    | c :: rest =>
      if c = lbraceChar then
        match jsonSkipWs rest with
        | c2 :: rest2 =>
          if c2 = rbraceChar then .ok (.pdict [], rest2)
          else
            match jsonObjItems fuel (c2 :: rest2) with
            | .ok (es, rest3) => .ok (.pdict es, rest3)
            | .error e => .error e
        | [] => .error "JSONDecodeError: unterminated object"
      else if c.isDigit ∨ c = '-' then jsonNumber (c :: rest)
      else .error "JSONDecodeError: expecting value"
    | [] => .error "JSONDecodeError: expecting value"

/-- Read the comma-separated items of a JSON array up to the closing
bracket (the array is known non-empty). -/
def jsonArrayItems (fuel : Nat) (cs : List Char) : Except String (List PyObj × List Char) :=
  match fuel with
  | 0 => .error "JSONDecodeError: out of fuel"
  | fuel + 1 =>
    match jsonValue fuel cs with
    | .error e => .error e
    | .ok (v, rest) =>
      match jsonSkipWs rest with
      | ',' :: rest2 =>
        match jsonArrayItems fuel rest2 with
        | .ok (vs, rest3) => .ok (v :: vs, rest3)
        | .error e => .error e
      | ']' :: rest2 => .ok ([v], rest2)
      | _ => .error "JSONDecodeError: expecting comma or bracket"

/-- Read the comma-separated `"key": value` pairs of a JSON object up to
the closing brace (the object is known non-empty). -/
def jsonObjItems (fuel : Nat) (cs : List Char) : Except String (List (String × PyObj) × List Char) :=
  match fuel with
  | 0 => .error "JSONDecodeError: out of fuel"
  | fuel + 1 =>
    match jsonSkipWs cs with
    | '"' :: rest =>
      match jsonStringAux [] rest with
      | .error e => .error e
      | .ok (k, rest2) =>
        match jsonSkipWs rest2 with
        | ':' :: rest3 =>
          match jsonValue fuel rest3 with
          | .error e => .error e
          | .ok (v, rest4) =>
            match jsonSkipWs rest4 with
            | ',' :: rest5 =>
              match jsonObjItems fuel rest5 with
              | .ok (es, rest6) => .ok ((k, v) :: es, rest6)
              | .error e => .error e
            | c :: rest5 =>
              if c = rbraceChar then .ok ([(k, v)], rest5)
              else .error "JSONDecodeError: expecting comma or brace"
            | [] => .error "JSONDecodeError: unterminated object"
        | _ => .error "JSONDecodeError: expecting colon"
    | _ => .error "JSONDecodeError: expecting property name"

end

/-- `json.loads(s)`: read one JSON document from `s`; anything but
whitespace after it is an error. -/
def jsonLoads (s : String) : Except String PyObj :=
  match jsonValue (4 * s.length + 4) s.data with
  | .error e => .error e
  | .ok (v, rest) =>
    match jsonSkipWs rest with
    | [] => .ok v
    | _ => .error "JSONDecodeError: extra data"

/-- Read a stripped, optionally signed decimal-integer string; a model of
`int(str)`. -/
def strToIntOpt (s : String) : Option Int :=
  let t := (strStrip s).data
  let (neg, t1) := match t with
    | '-' :: rest => (true, rest)
    | '+' :: rest => (false, rest)
    | rest => (false, rest)
  if t1.isEmpty ∨ ¬(t1.all Char.isDigit) then Option.none
  else Option.some (if neg then -(Int.ofNat (digitsVal t1)) else Int.ofNat (digitsVal t1))

/-- Model of the builtin `int(v)`: booleans and ints pass (booleans as
0/1), floats truncate toward zero, strings are read as optionally signed
decimal integers after stripping whitespace, everything else raises. -/
def pyIntOf (v : PyObj) : Except String PyObj :=
  match v with
  | .pbool b => .ok (.pint (if b then 1 else 0))
  | .pint n => .ok (.pint n)
  | .pfloat q => .ok (.pint (q.num / (q.den : Int)))
  | .pstr s =>
    match strToIntOpt s with
    | Option.some n => .ok (.pint n)
    | Option.none => .error ("ValueError: invalid literal for int: " ++ pyRepr v)
  | _ => .error ("TypeError: int() argument " ++ pyRepr v)

/-- Read a decimal string (optional sign, digits, optional fraction) as a
rational; a model of `float(str)` without exponent forms. -/
def decimalOf (s : String) : Option Rat :=
  let t := (strStrip s).data
  let (neg, t1) := match t with
    | '-' :: rest => (true, rest)
    | '+' :: rest => (false, rest)
    | rest => (false, rest)
  let (ip, t2) := t1.span Char.isDigit
  let (fp, t3) := match t2 with
    | '.' :: rest => rest.span Char.isDigit
    | rest => ([], rest)
  if t3.isEmpty ∧ ¬(ip.isEmpty ∧ fp.isEmpty) then
    let mag : Rat := (Int.ofNat (digitsVal ip) : Rat)
      + (digitsVal fp : Rat) / ((10 : Rat) ^ fp.length)
    Option.some (if neg then -mag else mag)
  else Option.none

/-- Model of the builtin `float(v)`. -/
def pyFloatOf (v : PyObj) : Except String PyObj :=
  match v with
  | .pbool b => .ok (.pfloat (if b then 1 else 0))
  | .pint n => .ok (.pfloat (n : Rat))
  | .pfloat q => .ok (.pfloat q)
  | .pstr s =>
    match decimalOf s with
    | Option.some q => .ok (.pfloat q)
    | Option.none => .error ("ValueError: could not convert string to float: " ++ pyRepr v)
  | _ => .error ("TypeError: float() argument " ++ pyRepr v)

/-- `ValueType.parse(self, v)`: coerce a raw value to this kind.

* `int` / `double`: the builtin numeric coercions;
* `bool`: booleans pass through; a string whose lowercasing is `"true"` or
  `"false"` maps to the corresponding boolean; anything else raises
  `ValueError: Invalid boolean value {v!r}`;
* `string`: `str(v)`;
* `list`: a string is first read with `json.loads` (its errors propagate);
  the (possibly decoded) value must then be a list, else
  `ValueError: Invalid list value {v!r}`;
* `object`: a string is read with `json.loads`, and on any decoding error
  the original string is returned unchanged;
* every remaining kind falls through to `return v`. -/
def ValueType.parse (self : ValueType) (v : PyObj) : Except String PyObj :=
  if self = ValueType.INT then pyIntOf v
  else if self = ValueType.DOUBLE then pyFloatOf v
  else if self = ValueType.BOOL then
    match v with
    | .pbool b => .ok (.pbool b)
    | .pstr s =>
      if strLower s = "true" ∨ strLower s = "false" then .ok (.pbool (strLower s = "true"))
      else .error ("ValueError: Invalid boolean value " ++ pyRepr (.pstr s))
    | _ => .error ("ValueError: Invalid boolean value " ++ pyRepr v)
  else if self = ValueType.STRING then .ok (.pstr (pyStr v))
  else if self = ValueType.LIST then
    match v with
    | .pstr s =>
      match jsonLoads s with
      | .error e => .error e
      | .ok w => if pyIsList w then .ok w else .error ("ValueError: Invalid list value " ++ pyRepr w)
    | w => if pyIsList w then .ok w else .error ("ValueError: Invalid list value " ++ pyRepr w)
  else if self = ValueType.OBJECT then
    match v with
    | .pstr s =>
      match jsonLoads s with
      | .ok w => .ok w
      | .error _ => .ok (.pstr s)
    | w => .ok w
  else .ok v

/-- `ValueType(t)`: the enum constructor used by
`OutputDefinition.deserialize`.  It looks the value up exactly
(case-sensitively) among the member values and raises `ValueError` when
there is no such member. -/
def ValueType.ofValue (v : PyObj) : Except String ValueType :=
  match v with
  | .pstr s =>
    match ValueType.members.find? (fun m => m.value == s) with
    | Option.some m => .ok m
    | Option.none => .error ("ValueError: " ++ pyRepr (.pstr s) ++ " is not a valid ValueType")
  | w => .error ("ValueError: " ++ pyRepr w ++ " is not a valid ValueType")

/-! ### InputDefinition -/

/-- The `InputDefinition` dataclass.  `type` is annotated
`List[ValueType]` but deserialization can put raw wire values in it, hence
`VTypeOrRaw`; the four optional fields are annotated `str` / `List[str]`
with default `None`, but deserialization stores whatever the wire carries,
hence `PyObj` with `None` as the dataclass default. -/
structure InputDefinition where
  type : List VTypeOrRaw
  default : PyObj := .none
  description : PyObj := .none
  enum : PyObj := .none
  custom_type : PyObj := .none

/-- `t.value` for an element of an `InputDefinition.type` list: a genuine
member yields its string value; a raw value kept by tolerant
deserialization has no `.value` attribute and raises. -/
def elemValue : VTypeOrRaw → Except String String
  | .vt v => .ok v.value
  | .raw _ => .error "AttributeError: value"

/-- `[t.value for t in ...]`, left to right, first error wins. -/
def tagValues : List VTypeOrRaw → Except String (List String)
  | [] => .ok []
  | e :: es =>
    match elemValue e with
    | .error m => .error m
    | .ok s =>
      match tagValues es with
      | .error m => .error m
      | .ok ss => .ok (s :: ss)

/-- `InputDefinition.serialize`: build `data` in insertion order.

`data["type"]` is first set to `([t.value for t in self.type],)` — the tag
list wrapped in a one-element tuple — and is overwritten with the single
scalar tag `self.type[0].value` only when exactly one kind is declared.
The optional fields are emitted only when truthy, `default` through
`str()`. -/
def InputDefinition.serialize (d : InputDefinition) : Except String (List (String × PyObj)) :=
  match tagValues d.type with
  | .error m => .error m
  | .ok tags =>
    let wrapped : PyObj := .ptuple [.plist (tags.map PyObj.pstr)]
    let typeVal : Except String PyObj :=
      if d.type.length == 1 then
        match d.type with
        | e :: _ => (elemValue e).map PyObj.pstr
        | [] => .error "IndexError"
      else .ok wrapped
    match typeVal with
    | .error m => .error m
    | .ok tv =>
      let data := [("type", tv)]
      let data := if pyTruthy d.default then data ++ [("default", .pstr (pyStr d.default))] else data
      let data := if pyTruthy d.description then data ++ [("description", d.description)] else data
      let data := if pyTruthy d.enum then data ++ [("enum", d.enum)] else data
      let data := if pyTruthy d.custom_type then data ++ [("custom_type", d.custom_type)] else data
      .ok data

/-- `[_deserialize_enum(ValueType, item) for item in v]`, left to right. -/
def resolveTypeItems : List PyObj → Except String (List VTypeOrRaw)
  | [] => .ok []
  | x :: xs =>
    match deserializeEnumValueType x with
    | .error m => .error m
    | .ok t =>
      match resolveTypeItems xs with
      | .error m => .error m
      | .ok ts => .ok (t :: ts)

/-- `_deserialize_type(v)`: wrap a non-list wire value in a singleton list
(`isinstance(v, list)` — a tuple is not a list), then resolve each item
through the tolerant enum helper. -/
def deserializeType (v : PyObj) : Except String (List VTypeOrRaw) :=
  match v with
  | .plist xs => resolveTypeItems xs
  | w => resolveTypeItems [w]

/-- `InputDefinition.deserialize(data)`: requires `"type"` (a missing key
raises `KeyError`); `default` and `description` default to `""` and `enum`
to `[]` when absent.  No value is passed for `custom_type`, which
therefore keeps the dataclass default `None`. -/
def InputDefinition.deserialize (data : List (String × PyObj)) : Except String InputDefinition :=
  match dictGet data "type" with
  | Option.none => .error "KeyError: type"
  | Option.some tv =>
    match deserializeType tv with
    | .error m => .error m
    | .ok ty =>
      .ok { type := ty,
            default := dictGetD data "default" (.pstr ""),
            description := dictGetD data "description" (.pstr ""),
            enum := dictGetD data "enum" (.plist []),
            custom_type := .none }

/-! ### OutputDefinition -/

/-- The `OutputDefinition` dataclass; `description` and `is_property`
default to `""` and `False` and carry whatever the wire supplies. -/
structure OutputDefinition where
  type : List ValueType
  description : PyObj := .pstr ""
  is_property : PyObj := .pbool false

/-- `[ValueType(t) for t in ...]`, left to right, first error wins. -/
def ofValueItems : List PyObj → Except String (List ValueType)
  | [] => .ok []
  | x :: xs =>
    match ValueType.ofValue x with
    | .error m => .error m
    | .ok v =>
      match ofValueItems xs with
      | .error m => .error m
      | .ok vs => .ok (v :: vs)

/-- The `type` expression of `OutputDefinition.deserialize`:
`[ValueType(t) for t in data["type"]] if isinstance(data["type"], list)
else [ValueType(data["type"])]`. -/
def outputTypeOf (tv : PyObj) : Except String (List ValueType) :=
  match tv with
  | .plist xs => ofValueItems xs
  | w =>
    match ValueType.ofValue w with
    | .error m => .error m
    | .ok v => .ok [v]

/-- `OutputDefinition.deserialize(data)`: requires `"type"`; each element
of a list-valued `type` (or the scalar `type` itself) goes through the
strict enum constructor `ValueType(t)`; `description` defaults to `""` and
`is_property` to `False`. -/
def OutputDefinition.deserialize (data : List (String × PyObj)) : Except String OutputDefinition :=
  match dictGet data "type" with
  | Option.none => .error "KeyError: type"
  | Option.some tv =>
    match outputTypeOf tv with
    | .error m => .error m
    | .ok ty =>
      .ok { type := ty,
            description := dictGetD data "description" (.pstr ""),
            is_property := dictGetD data "is_property" (.pbool false) }

/-! ### Tool -/

/-- A `Tool.type` value: either a genuine `ToolType` member or a raw wire
value kept by the tolerant enum helper during deserialization. -/
inductive ToolTypeField where
  | member : ToolType → ToolTypeField
  | raw : PyObj → ToolTypeField

/-- `self.type is ToolType.LLM`: the identity check is true only for the
actual enum member, never for an equal raw string. -/
def toolTypeIsLLM : ToolTypeField → Bool
  | .member .LLM => true
  | _ => false

/-- `self.type == ToolType._ACTION`: string-enum equality, so a raw string
`"action"` also compares equal to the member. -/
def toolTypeEqAction : ToolTypeField → Bool
  | .member t => t.value == "action"
  | .raw (.pstr s) => s == "action"
  | .raw _ => false

/-- The wire rendering of a `Tool.type` value under `asdict` (an enum
member is a `str` carrying its value). -/
def toolTypeWire : ToolTypeField → PyObj
  | .member t => .pstr t.value
  | .raw p => p

/-- The `Tool` dataclass.  The optional provenance fields follow their
annotations (`Optional[str]`, `Optional[List[str]]`, `Optional[bool]`);
`inputs` and `outputs` are insertion-ordered mappings. -/
structure Tool where
  name : String
  type : ToolTypeField
  inputs : List (String × InputDefinition)
  outputs : Option (List (String × OutputDefinition)) := Option.none
  description : Option String := Option.none
  module : Option String := Option.none
  class_name : Option String := Option.none
  source : Option String := Option.none
  code : Option String := Option.none
  function : Option String := Option.none
  connection_type : Option (List String) := Option.none
  is_builtin : Option Bool := Option.none
  stage : Option String := Option.none

/-- An `Optional[str]` field as a wire value (`None` when absent). -/
def optStr : Option String → PyObj
  | Option.none => .none
  | Option.some s => .pstr s

/-- An `Optional[bool]` field as a wire value. -/
def optBool : Option Bool → PyObj
  | Option.none => .none
  | Option.some b => .pbool b

/-- An `Optional[List[str]]` field as a wire value. -/
def optStrList : Option (List String) → PyObj
  | Option.none => .none
  | Option.some l => .plist (l.map PyObj.pstr)

/-- `asdict` applied to a nested `InputDefinition`: the dataclass fields in
declaration order, each entry passed through the same `dict_factory`,
which drops entries whose value is `None` (and the key `"outputs"`, which
does not occur here).  Field values are dumped as data, not through
`InputDefinition.serialize`: `type` stays the full list of member values
or raw items. -/
def InputDefinition.asdict (d : InputDefinition) : PyObj :=
  .pdict (([
    ("type", PyObj.plist (d.type.map (fun e =>
      match e with
      | .vt v => PyObj.pstr v.value
      | .raw p => p))),
    ("default", d.default),
    ("description", d.description),
    ("enum", d.enum),
    ("custom_type", d.custom_type)] : List (String × PyObj)).filter
      (fun kv => !(pyIsNone kv.2) && !(kv.1 == "outputs")))

/-- `asdict` applied to a nested `OutputDefinition`. -/
def OutputDefinition.asdict (d : OutputDefinition) : PyObj :=
  .pdict (([
    ("type", PyObj.plist (d.type.map (fun v => PyObj.pstr v.value))),
    ("description", d.description),
    ("is_property", d.is_property)] : List (String × PyObj)).filter
      (fun kv => !(pyIsNone kv.2) && !(kv.1 == "outputs")))

/-- `Tool.serialize`:

`data = asdict(self, dict_factory=...)` lists the dataclass fields in
declaration order and keeps an entry iff its value is not `None` and its
key is not `"outputs"`.  When `self.type == ToolType._ACTION`, the keys
`"type"`, `"inputs"` and `"outputs"` are additionally removed. -/
def Tool.serialize (t : Tool) : List (String × PyObj) :=
  let entries : List (String × PyObj) := [
    ("name", .pstr t.name),
    ("type", toolTypeWire t.type),
    ("inputs", .pdict (t.inputs.map (fun kv => (kv.1, kv.2.asdict)))),
    ("outputs", match t.outputs with
      | Option.none => .none
      | Option.some os => .pdict (os.map (fun kv => (kv.1, kv.2.asdict)))),
    ("description", optStr t.description),
    ("module", optStr t.module),
    ("class_name", optStr t.class_name),
    ("source", optStr t.source),
    ("code", optStr t.code),
    ("function", optStr t.function),
    ("connection_type", optStrList t.connection_type),
    ("is_builtin", optBool t.is_builtin),
    ("stage", optStr t.stage)]
  let data := entries.filter (fun kv => !(pyIsNone kv.2) && !(kv.1 == "outputs"))
  if !(toolTypeEqAction t.type) then data
  else data.filter (fun kv => !(kv.1 == "type") && !(kv.1 == "inputs") && !(kv.1 == "outputs"))

/-- `Tool._require_connection`:
`self.type is ToolType.LLM or isinstance(self.connection_type, list) and
len(self.connection_type) > 0` (in Python, `or` binds looser than
`and`; `isinstance(None, list)` is false). -/
def Tool.require_connection (t : Tool) : Bool :=
  toolTypeIsLLM t.type ||
    ((match t.connection_type with
      | Option.some _ => true
      | Option.none => false) &&
     (match t.connection_type with
      | Option.some l => decide (l.length > 0)
      | Option.none => false))

/-! ### Helper lemmas -/

/-- Resolving a list of wire items preserves its length when it
succeeds. -/
theorem resolveTypeItems_ok_length (xs : List PyObj) (l : List VTypeOrRaw)
    (h : resolveTypeItems xs = .ok l) : l.length = xs.length := by
  induction xs generalizing l with
  | nil =>
    unfold resolveTypeItems at h
    cases h
    rfl
  | cons x xs ih =>
    unfold resolveTypeItems at h
    split at h
    · cases h
    · split at h
      · cases h
      · cases h
        simp [ih _ (by assumption)]

/-- Whether a wire value is exactly the string value of some `ValueType`
member (the values `ValueType(t)` accepts). -/
def vtExactTag : PyObj → Bool
  | .pstr s => ValueType.members.any (fun m => m.value == s)
  | _ => false

/-- `ValueType(t)` succeeds exactly on the exact member-value strings. -/
theorem ofValue_ok_iff (w : PyObj) :
    (∃ m, ValueType.ofValue w = .ok m) ↔ vtExactTag w = true := by
  cases w with
  | pstr s =>
    constructor
    · rintro ⟨m, hm⟩
      simp only [ValueType.ofValue] at hm
      split at hm
      · rename_i m2 hfind
        have hmem := List.mem_of_find?_eq_some hfind
        have hval := List.find?_some hfind
        simp only [vtExactTag, List.any_eq_true]
        exact ⟨m2, hmem, hval⟩
      · cases hm
    · intro hv
      simp only [vtExactTag, List.any_eq_true] at hv
      obtain ⟨m, hmem, hval⟩ := hv
      simp only [ValueType.ofValue]
      split
      · exact ⟨_, rfl⟩
      · rename_i hfind
        rw [List.find?_eq_none] at hfind
        exact absurd hval (by simpa using hfind m hmem)
  | none => simp [ValueType.ofValue, vtExactTag]
  | pbool b => simp [ValueType.ofValue, vtExactTag]
  | pint n => simp [ValueType.ofValue, vtExactTag]
  | pfloat q => simp [ValueType.ofValue, vtExactTag]
  | plist xs => simp [ValueType.ofValue, vtExactTag]
  | ptuple xs => simp [ValueType.ofValue, vtExactTag]
  | pdict es => simp [ValueType.ofValue, vtExactTag]

/-- `[ValueType(t) for t in xs]` succeeds exactly when every item is an
exact member-value string. -/
theorem ofValueItems_ok_iff (xs : List PyObj) :
    (∃ l, ofValueItems xs = .ok l) ↔ xs.all vtExactTag = true := by
  induction xs with
  | nil => simp [ofValueItems]
  | cons x xs ih =>
    simp only [List.all_cons, Bool.and_eq_true, ← ih, ← ofValue_ok_iff]
    constructor
    · rintro ⟨l, hl⟩
      unfold ofValueItems at hl
      split at hl
      · cases hl
      · split at hl
        · cases hl
        · exact ⟨⟨_, by assumption⟩, ⟨_, by assumption⟩⟩
    · rintro ⟨⟨m, hm⟩, ⟨l, hl⟩⟩
      refine ⟨m :: l, ?_⟩
      unfold ofValueItems
      rw [hm, hl]

/-- A key never satisfying the filter predicate does not occur among the
keys of the filtered association list. -/
theorem filter_key_not_mem (l : List (String × PyObj)) (p : String × PyObj → Bool)
    (key : String) (hp : ∀ kv, kv.1 = key → p kv = false) :
    key ∉ (l.filter p).map Prod.fst := by
  intro hmem
  simp only [List.mem_map] at hmem
  obtain ⟨kv, hkv, hfst⟩ := hmem
  rw [List.mem_filter] at hkv
  rw [hp kv hfst] at hkv
  exact absurd hkv.2 (by simp)

/-! ### Claims -/

/-- C1 (code bug).  The claimed `InputDefinition` serialize/deserialize
round-trip fails on the code: serializing a two-kind definition wraps the
tag list in a one-element tuple, on which `deserialize` raises
(`tuple` has no `lower`); and even for a one-kind definition a populated
`custom_type` is not restored (it comes back `None`), because
`deserialize` never reads `"custom_type"`. -/
theorem claim_C1_roundtrip_bug :
    (InputDefinition.serialize
        { type := [.vt .STRING, .vt .INT], custom_type := .plist [.pstr "CustomConn"] }).bind
        InputDefinition.deserialize = .error "AttributeError: lower" ∧
    (InputDefinition.serialize
        { type := [.vt .STRING], custom_type := .plist [.pstr "CustomConn"] }).bind
        InputDefinition.deserialize =
      .ok { type := [.vt .STRING], default := .pstr "", description := .pstr "",
            enum := .plist [], custom_type := .none } :=
  ⟨rfl, rfl⟩

/-- C2 (code bug).  `InputDefinition.serialize` emits the single scalar
tag when exactly one kind is declared, but with two or more kinds it
emits the tag sequence wrapped in a redundant one-element tuple — a
nested container — rather than the plain sequence the claim states. -/
theorem claim_C2_scalar_and_tuple_wrap :
    (∀ v : ValueType, InputDefinition.serialize { type := [.vt v] } =
        .ok [("type", .pstr v.value)]) ∧
    InputDefinition.serialize { type := [.vt .STRING, .vt .INT] } =
      .ok [("type", .ptuple [.plist [.pstr "string", .pstr "int"]])] :=
  ⟨fun v => by cases v <;> rfl, rfl⟩

/-- C5, counterexample.  A wire mapping whose `"type"` field is the empty
sequence is accepted by `InputDefinition.deserialize`, and the resulting
definition's type sequence is empty. -/
theorem claim_C5_counterexample :
    InputDefinition.deserialize [("type", PyObj.plist [])] =
      .ok { type := [], default := .pstr "", description := .pstr "",
            enum := .plist [], custom_type := .none } :=
  rfl

/-- C5, amended.  For every input mapping on which
`InputDefinition.deserialize` succeeds and whose `"type"` entry is not the
empty sequence, the resulting definition's type sequence is non-empty (a
non-sequence `"type"` is wrapped into a one-element sequence first). -/
theorem claim_C5_nonempty_type (data : List (String × PyObj)) (d : InputDefinition)
    (h1 : InputDefinition.deserialize data = .ok d)
    (h2 : dictGet data "type" ≠ Option.some (PyObj.plist [])) : d.type ≠ [] := by
  unfold InputDefinition.deserialize at h1
  split at h1
  · cases h1
  · rename_i tv hget
    split at h1
    · cases h1
    · rename_i ty hty
      cases h1
      show ty ≠ []
      unfold deserializeType at hty
      split at hty
      · rename_i xs
        have hlen := resolveTypeItems_ok_length xs ty hty
        have hxs : xs ≠ [] := by
          intro hnil
          exact h2 (by rw [hget, hnil])
        intro hnil
        subst hnil
        exact hxs (by cases xs with
          | nil => rfl
          | cons a as => simp at hlen)
      · have hlen := resolveTypeItems_ok_length [tv] ty hty
        intro hnil
        subst hnil
        simp at hlen

/-- C5, witness for the amended theorem at the concrete mapping
`[("type", "int")]`. -/
theorem claim_C5_witness :
    ({ type := [.vt .INT], default := .pstr "", description := .pstr "",
       enum := .plist [], custom_type := .none } : InputDefinition).type ≠ [] := by
  apply claim_C5_nonempty_type [("type", PyObj.pstr "int")]
  · rfl
  · rw [show dictGet [("type", PyObj.pstr "int")] "type" = Option.some (PyObj.pstr "int") from rfl]
    simp

/-- Whether a wire `type` field (scalar or sequence) consists solely of
exact `ValueType` member-value strings. -/
def typeFieldExact : PyObj → Bool
  | .plist xs => xs.all vtExactTag
  | w => vtExactTag w

/-- C3, counterexample.  An element of the `"type"` field that matches no
`ValueType` tag does not remain as its raw string: `OutputDefinition.deserialize`
fails with a `ValueError` (it resolves through the strict enum constructor
`ValueType(t)`, not the tolerant helper). -/
theorem claim_C3_counterexample :
    OutputDefinition.deserialize [("type", PyObj.pstr "connection_x")] =
      .error "ValueError: \"connection_x\" is not a valid ValueType" :=
  rfl

/-- `outputTypeOf` succeeds exactly when every (normalized) element of the
wire `type` field is an exact member-value string. -/
theorem outputTypeOf_ok_iff (tv : PyObj) :
    (∃ l, outputTypeOf tv = .ok l) ↔ typeFieldExact tv = true := by
  cases tv with
  | plist xs => simpa [outputTypeOf, typeFieldExact] using ofValueItems_ok_iff xs
  | pstr s =>
    simp only [outputTypeOf, typeFieldExact]
    rw [← ofValue_ok_iff]
    constructor
    · rintro ⟨l, hl⟩
      split at hl
      · cases hl
      · rename_i v hv
        exact ⟨v, hv⟩
    · rintro ⟨m, hm⟩
      rw [hm]
      exact ⟨[m], rfl⟩
  | none => simp [outputTypeOf, ValueType.ofValue, typeFieldExact, vtExactTag]
  | pbool b => simp [outputTypeOf, ValueType.ofValue, typeFieldExact, vtExactTag]
  | pint n => simp [outputTypeOf, ValueType.ofValue, typeFieldExact, vtExactTag]
  | pfloat q => simp [outputTypeOf, ValueType.ofValue, typeFieldExact, vtExactTag]
  | ptuple xs => simp [outputTypeOf, ValueType.ofValue, typeFieldExact, vtExactTag]
  | pdict es => simp [outputTypeOf, ValueType.ofValue, typeFieldExact, vtExactTag]

/-- C3, amended.  `OutputDefinition.deserialize` accepts an input mapping
exactly when its `"type"` entry is present and every element of it (after
scalar-to-sequence normalization) is exactly the string value of some
`ValueType` member; any other element — an unknown tag, a case variant, or
a non-string — makes deserialization fail with a `ValueError` rather than
remain as a raw value. -/
theorem claim_C3_strict_output_type (data : List (String × PyObj)) :
    (∃ d, OutputDefinition.deserialize data = .ok d) ↔
      (∃ v, dictGet data "type" = Option.some v ∧ typeFieldExact v = true) := by
  cases hget : dictGet data "type" with
  | none => simp [OutputDefinition.deserialize, hget]
  | some tv =>
    simp only [OutputDefinition.deserialize, hget, Option.some.injEq]
    constructor
    · rintro ⟨d, hd⟩
      split at hd
      · cases hd
      · rename_i ty hty
        exact ⟨tv, rfl, (outputTypeOf_ok_iff tv).mp ⟨ty, hty⟩⟩
    · rintro ⟨v, hv, hex⟩
      cases hv
      obtain ⟨l, hl⟩ := (outputTypeOf_ok_iff tv).mpr hex
      rw [hl]
      exact ⟨_, rfl⟩

/-- C4, counterexample.  For a string-backed enumeration (`ValueType`) and
a non-string candidate, the tolerant helper does not return the candidate
unchanged: `val.lower()` raises `AttributeError`. -/
theorem claim_C4_counterexample :
    deserializeEnumG valueTypeMemberVals (PyObj.pbool true) = .error "AttributeError: lower" :=
  rfl

/-- C4, amended.  For every string-backed enumeration and every *string*
candidate, the tolerant helper returns the first member whose (non-empty)
string value matches the candidate case-insensitively when one exists, and
otherwise returns the candidate unchanged, never raising; in particular,
for any string with no case-insensitive match against `ValueType` or
`ToolType`, the candidate comes back unchanged.  (A non-string candidate
raises `AttributeError` whenever the enumeration is non-empty, as the
counterexample shows.) -/
theorem claim_C4_tolerant_enum_resolution :
    (∀ (members : List PyObj) (s t : String), members.all pyIsStr = true →
      findCI members s = Option.some (.pstr t) → t ≠ "" →
      deserializeEnumG members (.pstr s) = .ok (.pstr t)) ∧
    (∀ (members : List PyObj) (s : String), members.all pyIsStr = true →
      findCI members s = Option.none →
      deserializeEnumG members (.pstr s) = .ok (.pstr s)) ∧
    (∀ s : String, findCI valueTypeMemberVals s = Option.none →
      deserializeEnumG valueTypeMemberVals (.pstr s) = .ok (.pstr s)) ∧
    (∀ s : String, findCI toolTypeMemberVals s = Option.none →
      deserializeEnumG toolTypeMemberVals (.pstr s) = .ok (.pstr s)) := by
  have hfound : ∀ (members : List PyObj) (s t : String), members.all pyIsStr = true →
      findCI members s = Option.some (.pstr t) → t ≠ "" →
      deserializeEnumG members (.pstr s) = .ok (.pstr t) := by
    intro members s t hall hfind hne
    have ht : t.isEmpty = false :=
      Bool.eq_false_iff.mpr (fun h => hne ((String.isEmpty_iff t).mp h))
    cases members with
    | nil => simp [findCI] at hfind
    | cons m ms => simp [deserializeEnumG, hall, hfind, ht]
  have hmiss : ∀ (members : List PyObj) (s : String), members.all pyIsStr = true →
      findCI members s = Option.none →
      deserializeEnumG members (.pstr s) = .ok (.pstr s) := by
    intro members s hall hfind
    cases members with
    | nil => rfl
    | cons m ms => simp [deserializeEnumG, hall, hfind]
  exact ⟨hfound, hmiss, fun s h => hmiss valueTypeMemberVals s rfl h,
    fun s h => hmiss toolTypeMemberVals s rfl h⟩

/-- C4, witness: a case-insensitive hit (`"INT"` resolves to the member
value `"int"`) and an unregistered string against each enumeration
coming back unchanged. -/
theorem claim_C4_witness :
    deserializeEnumG valueTypeMemberVals (.pstr "INT") = .ok (.pstr "int") ∧
    deserializeEnumG valueTypeMemberVals (.pstr "my_conn") = .ok (.pstr "my_conn") ∧
    deserializeEnumG toolTypeMemberVals (.pstr "zzz") = .ok (.pstr "zzz") :=
  ⟨claim_C4_tolerant_enum_resolution.1 valueTypeMemberVals "INT" "int" rfl rfl (by simp),
   claim_C4_tolerant_enum_resolution.2.2.1 "my_conn" rfl,
   claim_C4_tolerant_enum_resolution.2.2.2 "zzz" rfl⟩

/-- C6.  `Tool.serialize` never emits the key `"outputs"`, and when the
tool's type is the internal action kind it emits neither `"type"` nor
`"inputs"` either, regardless of those fields' values. -/
theorem claim_C6_serialize_key_suppression (t : Tool) :
    "outputs" ∉ (Tool.serialize t).map Prod.fst ∧
    (t.type = ToolTypeField.member ToolType.ACTION →
      "type" ∉ (Tool.serialize t).map Prod.fst ∧
      "inputs" ∉ (Tool.serialize t).map Prod.fst) := by
  constructor
  · simp only [Tool.serialize]
    split
    · exact filter_key_not_mem _ _ _ (fun kv h => by simp [h])
    · exact filter_key_not_mem _ _ _ (fun kv h => by simp [h])
  · intro htype
    have hact : toolTypeEqAction t.type = true := by rw [htype]; rfl
    constructor
    · simp only [Tool.serialize]
      rw [if_neg (by rw [hact]; simp)]
      exact filter_key_not_mem _ _ _ (fun kv h => by simp [h])
    · simp only [Tool.serialize]
      rw [if_neg (by rw [hact]; simp)]
      exact filter_key_not_mem _ _ _ (fun kv h => by simp [h])

/-- C6, witness: a concrete action-kind tool with populated `type`,
`inputs` and `outputs`. -/
def actionToolExample : Tool :=
  { name := "noop", type := .member .ACTION,
    inputs := [("x", { type := [.vt .INT] })],
    outputs := Option.some [("y", { type := [.STRING] })],
    description := Option.some "an action tool" }

/-- C6, witness for the action-kind implication at `actionToolExample`. -/
theorem claim_C6_witness :
    "outputs" ∉ (Tool.serialize actionToolExample).map Prod.fst ∧
    "type" ∉ (Tool.serialize actionToolExample).map Prod.fst ∧
    "inputs" ∉ (Tool.serialize actionToolExample).map Prod.fst :=
  ⟨(claim_C6_serialize_key_suppression actionToolExample).1,
   ((claim_C6_serialize_key_suppression actionToolExample).2 rfl).1,
   ((claim_C6_serialize_key_suppression actionToolExample).2 rfl).2⟩

/-- C7.  `ValueType.BOOL.parse` passes booleans through, maps any string
whose lowercasing is `"true"`/`"false"` to the corresponding boolean, and
raises the "Invalid boolean value" error on exactly every other input. -/
theorem claim_C7_bool_parse :
    (∀ b, ValueType.parse .BOOL (.pbool b) = .ok (.pbool b)) ∧
    (∀ s, strLower s = "true" → ValueType.parse .BOOL (.pstr s) = .ok (.pbool true)) ∧
    (∀ s, strLower s = "false" → ValueType.parse .BOOL (.pstr s) = .ok (.pbool false)) ∧
    (∀ v, (∀ b, v ≠ PyObj.pbool b) →
      (∀ s, v = PyObj.pstr s → strLower s ≠ "true" ∧ strLower s ≠ "false") →
      ValueType.parse .BOOL v = .error ("ValueError: Invalid boolean value " ++ pyRepr v)) := by
  refine ⟨fun b => rfl, ?_, ?_, ?_⟩
  · intro s h
    simp [ValueType.parse, h]
  · intro s h
    simp [ValueType.parse, h]
  · intro v h1 h2
    cases v with
    | pbool b => exact absurd rfl (h1 b)
    | pstr s =>
      obtain ⟨ht, hf⟩ := h2 s rfl
      simp [ValueType.parse, ht, hf]
    | none => rfl
    | pint n => rfl
    | pfloat q => rfl
    | plist xs => rfl
    | ptuple xs => rfl
    | pdict es => rfl

/-- C7, witness: `parse("TRUE")` is `True`, booleans pass through, and
`parse("maybe")` raises the invalid-boolean error. -/
theorem claim_C7_witness :
    ValueType.parse .BOOL (.pstr "TRUE") = .ok (.pbool true) ∧
    ValueType.parse .BOOL (.pbool false) = .ok (.pbool false) ∧
    ValueType.parse .BOOL (.pstr "maybe") =
      .error ("ValueError: Invalid boolean value " ++ pyRepr (.pstr "maybe")) :=
  ⟨claim_C7_bool_parse.2.1 "TRUE" rfl,
   claim_C7_bool_parse.1 false,
   claim_C7_bool_parse.2.2.2 (.pstr "maybe")
     (fun b h => PyObj.noConfusion h)
     (fun s h => by cases h; exact ⟨by decide, by decide⟩)⟩

/-- C8.  `ValueType.LIST.parse` decodes a string input as JSON first
(propagating the decode error on invalid JSON, e.g. `"not json"`), then
fails with the "Invalid list value" error unless the result is a list,
returning the list otherwise; every non-string non-list input also
fails. -/
theorem claim_C8_list_parse :
    ValueType.parse .LIST (.pstr "[\"a\",\"b\"]") = .ok (.plist [.pstr "a", .pstr "b"]) ∧
    (∃ e, ValueType.parse .LIST (.pstr "not json") = .error e) ∧
    (∀ s e, jsonLoads s = .error e → ValueType.parse .LIST (.pstr s) = .error e) ∧
    (∀ s xs, jsonLoads s = .ok (.plist xs) →
      ValueType.parse .LIST (.pstr s) = .ok (.plist xs)) ∧
    (∀ s w, jsonLoads s = .ok w → pyIsList w = false →
      ValueType.parse .LIST (.pstr s) = .error ("ValueError: Invalid list value " ++ pyRepr w)) ∧
    (∀ xs, ValueType.parse .LIST (.plist xs) = .ok (.plist xs)) ∧
    (∀ v, pyIsStr v = false → pyIsList v = false →
      ValueType.parse .LIST v = .error ("ValueError: Invalid list value " ++ pyRepr v)) := by
  refine ⟨rfl, ⟨_, rfl⟩, ?_, ?_, ?_, fun xs => rfl, ?_⟩
  · intro s e h
    simp [ValueType.parse, h]
  · intro s xs h
    simp [ValueType.parse, h, pyIsList]
  · intro s w h hw
    simp [ValueType.parse, h, hw]
  · intro v h1 h2
    cases v with
    | pstr s => simp [pyIsStr] at h1
    | plist xs => simp [pyIsList] at h2
    | none => rfl
    | pbool b => rfl
    | pint n => rfl
    | pfloat q => rfl
    | ptuple xs => rfl
    | pdict es => rfl

/-- C8, witness: a JSON array string parses to the list, a JSON non-list
string fails with the invalid-list error, and a non-string non-list input
fails. -/
theorem claim_C8_witness :
    ValueType.parse .LIST (.pstr "[1, 2]") = .ok (.plist [.pint 1, .pint 2]) ∧
    ValueType.parse .LIST (.pstr "\"xy\"") =
      .error ("ValueError: Invalid list value " ++ pyRepr (.pstr "xy")) ∧
    ValueType.parse .LIST (.pint 5) =
      .error ("ValueError: Invalid list value " ++ pyRepr (.pint 5)) :=
  ⟨claim_C8_list_parse.2.2.2.1 "[1, 2]" [.pint 1, .pint 2] rfl,
   claim_C8_list_parse.2.2.2.2.1 "\"xy\"" (.pstr "xy") rfl rfl,
   claim_C8_list_parse.2.2.2.2.2.2 (.pint 5) rfl rfl⟩

/-- C9.  `ValueType.OBJECT.parse` is total: every input yields a value and
nothing raises; a string is decoded as JSON when possible, kept unchanged
when decoding fails (`"plain text"` comes back as itself), and every
non-string input is returned unchanged. -/
theorem claim_C9_object_parse_total :
    (∀ v, ∃ r, ValueType.parse .OBJECT v = .ok r) ∧
    (∀ s r, jsonLoads s = .ok r → ValueType.parse .OBJECT (.pstr s) = .ok r) ∧
    (∀ s e, jsonLoads s = .error e → ValueType.parse .OBJECT (.pstr s) = .ok (.pstr s)) ∧
    ValueType.parse .OBJECT (.pstr "plain text") = .ok (.pstr "plain text") ∧
    (∀ v, pyIsStr v = false → ValueType.parse .OBJECT v = .ok v) := by
  have hok : ∀ s r, jsonLoads s = .ok r → ValueType.parse .OBJECT (.pstr s) = .ok r := by
    intro s r h
    simp [ValueType.parse, h]
  have herr : ∀ s e, jsonLoads s = .error e →
      ValueType.parse .OBJECT (.pstr s) = .ok (.pstr s) := by
    intro s e h
    simp [ValueType.parse, h]
  have hnonstr : ∀ v, pyIsStr v = false → ValueType.parse .OBJECT v = .ok v := by
    intro v hv
    cases v with
    | pstr s => simp [pyIsStr] at hv
    | none => rfl
    | pbool b => rfl
    | pint n => rfl
    | pfloat q => rfl
    | plist xs => rfl
    | ptuple xs => rfl
    | pdict es => rfl
  refine ⟨?_, hok, herr, rfl, hnonstr⟩
  intro v
  cases v with
  | pstr s =>
    cases h : jsonLoads s with
    | ok r => exact ⟨r, hok s r h⟩
    | error e => exact ⟨.pstr s, herr s e h⟩
  | none => exact ⟨_, rfl⟩
  | pbool b => exact ⟨_, rfl⟩
  | pint n => exact ⟨_, rfl⟩
  | pfloat q => exact ⟨_, rfl⟩
  | plist xs => exact ⟨_, rfl⟩
  | ptuple xs => exact ⟨_, rfl⟩
  | pdict es => exact ⟨_, rfl⟩

/-- C9, witness: a JSON string decodes, a non-JSON string comes back
unchanged, a non-string comes back unchanged. -/
theorem claim_C9_witness :
    ValueType.parse .OBJECT (.pstr "[1]") = .ok (.plist [.pint 1]) ∧
    ValueType.parse .OBJECT (.pstr "it is a string") = .ok (.pstr "it is a string") ∧
    ValueType.parse .OBJECT (.pint 7) = .ok (.pint 7) :=
  ⟨claim_C9_object_parse_total.2.1 "[1]" (.plist [.pint 1]) rfl,
   claim_C9_object_parse_total.2.2.1 "it is a string" _ rfl,
   claim_C9_object_parse_total.2.2.2.2 (.pint 7) rfl⟩

/-- C10.  A tool requires a connection exactly when its type is the `llm`
member or its `connection_type` is a non-empty list. -/
theorem claim_C10_require_connection (t : Tool) :
    Tool.require_connection t = true ↔
      (t.type = ToolTypeField.member ToolType.LLM ∨
        ∃ l, t.connection_type = Option.some l ∧ l ≠ []) := by
  obtain ⟨name, ty, inputs, outputs, descr, modl, cls, src, code, fn, conn, ib, st⟩ := t
  simp only [Tool.require_connection, toolTypeIsLLM]
  cases ty with
  | member tt =>
    cases tt <;> cases conn <;>
      simp [List.length_pos, ToolTypeField.member.injEq]
  | raw p =>
    cases conn <;> simp [List.length_pos]

end PromptflowTool
